import Mathlib

/-!
Shallow embedding of the trapperkeeper trap-ingestion pipeline
(src/trapperkeeper/callbacks.py) for specification checking.

The embedding models `TrapperCallback.__call__` / `TrapperCallback._call`,
`TrapperCallback._send_mail`, `TrapperCallback._index_to_elasticsearch` and
`transform_varbind` as pure functions from an environment (the constructor
arguments plus the observable behaviour of the external collaborators:
decoder, DDE enrichment hook, database connection, mail transport, OID
resolver) and a received message to a trace of observable events (counter
increments, log lines, database operations, mail dispatch, index dispatch)
together with an `Except` value recording whether the body raised.

External library calls (pysnmp decoding, sqlalchemy, smtplib, oid_translate)
are oracles: their outcomes are inputs of the model, and the model mirrors
exactly how `callbacks.py` branches on those outcomes.
-/

namespace Trapperkeeper

/-- Severity levels of the Python `logging` calls appearing in callbacks.py. -/
inductive LogLevel where
  | debug
  | info
  | warning
  | error
deriving DecidableEq, Repr

/-- A value stored in a flat index document: the documents built by
`_index_to_elasticsearch` hold strings (OID names, values) and the
integer store identifier. -/
inductive DVal where
  | str (s : String)
  | nat (n : Nat)
deriving DecidableEq, Repr

/-- Python dicts are modelled as insertion-ordered association lists. -/
abbrev Dict := List (String × DVal)

/-- `d[k]` as a total lookup returning an `Option`. -/
def dget (d : Dict) (k : String) : Option DVal :=
  (d.find? (fun kv => kv.1 = k)).map (fun kv => kv.2)

/-- `d[k] = v`: replace the first binding of `k` in place if present,
otherwise append, matching CPython dict assignment (insertion order kept,
overwrite in place). -/
def dset (d : Dict) (k : String) (v : DVal) : Dict :=
  match d with
  | [] => [(k, v)]
  | kv :: rest =>
    if kv.1 = k then (k, v) :: rest else kv :: dset rest k v

/-- `d.update(e)`: assign every binding of `e` into `d`, left to right. -/
def dupdate (d e : Dict) : Dict :=
  e.foldl (fun acc kv => dset acc kv.1 kv.2) d

/-- `del d[k]`: remove the key's binding. -/
def ddel (d : Dict) (k : String) : Dict :=
  match d with
  | [] => []
  | kv :: rest => if kv.1 = k then ddel rest k else kv :: ddel rest k

/-- One variable binding of a trap, with the fields that
`varbind.to_dict(pretty=True)` exposes (see the literal dict recorded in
the comment at callbacks.py lines 208-213). -/
structure Varbind where
  name : String
  oid : String
  pretty_value : String
  value : String
  value_type : String
deriving DecidableEq, Repr

/-- Modelled from the spec: `VarBind.to_dict(pretty=True)` lives in
trapperkeeper/models.py, which is not under src/; its shape is fixed by the
in-source comment at callbacks.py lines 208-213 listing exactly the keys
`name`, `notification_id`, `oid`, `pretty_value`, `value`, `value_type`.
`transform_varbind` reads only the five modelled here. -/
def Varbind.to_dict (vb : Varbind) : Dict :=
  [("name", .str vb.name),
   ("oid", .str vb.oid),
   ("pretty_value", .str vb.pretty_value),
   ("value", .str vb.value),
   ("value_type", .str vb.value_type)]

/-- The Trap Notification entity (`Notification` in trapperkeeper/models.py,
not under src/): source host, SNMP version, trap OID, sent timestamp,
variable bindings, and the policy-assigned severity / manager / expires
fields, plus the store identifier exposed by `to_dict` as `id`.
Timestamps are integers (seconds); durations are added to them. -/
structure Trap where
  host : String
  version : String
  oid : String
  sent : Int
  varbinds : List Varbind
  severity : Option String
  manager : Option String
  expires : Option Int
  id : Nat
deriving DecidableEq, Repr

/-- Modelled from the spec: `Notification.to_dict` (models.py not under
src/) returns the base notification fields as a flat mapping; per spec
section 4.4 the base fields carry the stored identifier under the key
`id`, which `_index_to_elasticsearch` renames to `notification_id`. -/
def Trap.to_dict (t : Trap) : Dict :=
  [("id", .nat t.id),
   ("host", .str t.host),
   ("oid", .str t.oid),
   ("severity", .str (t.severity.getD "")),
   ("manager", .str (t.manager.getD ""))]

/-- The mail rule of a handler policy: `handler["mail"]` with its
`recipients` list and `subject` template.  A falsy `mail` entry is
modelled as `none` at the use site. -/
structure MailRule where
  recipients : List String
  subject : String
deriving DecidableEq, Repr

/-- A handler policy entry (`self.config.handlers[trap.oid]`), with the
fields callbacks.py reads: `severity`, optional `expiration` (a duration
string, absent or empty counts as unconfigured per `handler.get(...)`
truthiness), `blackhole` (read with default `False`), `mail_on_duplicate`,
and the optional mail rule. -/
structure Handler where
  severity : String
  expiration : Option String
  blackhole : Bool
  mail_on_duplicate : Bool
  mail : Option MailRule
deriving DecidableEq, Repr

/-- Truthiness of `handler.get("expiration", None)`: `None` and the empty
string are falsy, a non-empty duration string is truthy. -/
def expirationConfigured : Option String → Bool
  | none => false
  | some s => s ≠ ""

/-- Outcome of the `self.conn.add(trap); self.conn.commit()` transaction,
naming the three sqlalchemy exception classes callbacks.py catches. -/
inductive DbOutcome where
  | ok
  | operationalError
  | invalidRequestError
  | integrityError
deriving DecidableEq, Repr

/-- Modelled from the spec: outcome of `send_trap_email`
(trapperkeeper/utils.py, not under src/).  Per spec section 6 the mail
transport yields success or failure, and per section 4.4 the failure is
the signal the caller catches (`socket.error` at callbacks.py line 70). -/
inductive MailResult where
  | ok
  | failure
deriving DecidableEq, Repr

/-- An uncaught Python exception escaping a pipeline stage.  The only
in-model raiser is the DDE enrichment hook (callbacks.py line 121 calls it
with no surrounding try/except). -/
inductive Exn where
  | ddeError
deriving DecidableEq, Repr

/-- Observable events of one callback invocation: counter increments
(`stats.incr(name, 1)`), log lines (identified by level and format
string), database session operations (`add` carries the trap object that
was added), mail dispatch, index dispatch, and stdout debug prints. -/
inductive Event where
  | incr (counter : String)
  | log (lvl : LogLevel) (msg : String)
  | dbAdd (t : Trap)
  | dbCommit
  | dbRollback
  | mailSend (recipients : List String) (subject : String)
  | indexDoc (doc : Dict)
  | print
deriving DecidableEq, Repr

/-- The environment of one `TrapperCallback` invocation: the constructor
state (`community`, `hostname`, the handler table, template machinery) and
the behaviour of the external collaborators during this invocation. -/
structure Env where
  /-- `self.community`, the configured shared secret; empty string is falsy. -/
  community : String
  /-- `socket.gethostname()` captured in `__init__`. -/
  hostname : String
  /-- `self.config.handlers[...]` as a total lookup (see `handlersFromTable`). -/
  handlers : String → Handler
  /-- The `dde_run` enrichment hook applied to `DdeNotification(trap, handler)`:
  returns the final `dde.handler` or raises. -/
  ddeRun : Trap → Handler → Except Exn Handler
  /-- `parse_time_string` + `timedelta(**·)` collapsed to the duration, in
  the same units as `Trap.sent`. -/
  parseTimeString : String → Int
  /-- `ObjectId(oid).name` from oid_translate. -/
  objIdName : String → String
  /-- `self.resolver.hostname_or_ip`. -/
  resolver : String → String
  /-- Python `%` interpolation of the subject template with keys
  trap_oid, trap_name, ipaddress, hostname. -/
  formatSubject : String → String → String → String → String → String
  /-- Outcome of this invocation's persistence transaction. -/
  db : DbOutcome
  /-- Outcome of this invocation's `send_trap_email` call, if reached. -/
  mailResult : MailResult

/-- Modelled from the spec: the policy table lookup
`self.config.handlers[trap.oid]` (trapperkeeper/config.py not under src/).
Per spec section 3, absence of a matching policy is a valid outcome and the
default policy applies, so the table is a finite association list backed by
a default handler. -/
def handlersFromTable (table : List (String × Handler)) (dflt : Handler) :
    String → Handler :=
  fun oid => ((table.find? (fun kv => kv.1 = oid)).map (fun kv => kv.2)).getD dflt

/-- The decoded view of the received message that the pysnmp/pyasn1
boundary yields: `decoder.decode` either raises (`none`) or produces a
message whose community string, PDU-type check and
`Notification.from_pdu` result are recorded. -/
structure Decoded where
  community : String
  isTrapPdu : Bool
  fromPdu : Option Trap

/-- One received message: the raw payload (only its truthiness matters to
the model), the result of `api.decodeMessageVersion`, the
`decoder.decode` outcome and the source transport address. -/
structure Msg where
  wholeMsg : List Nat
  version : Nat
  decoded : Option Decoded
  transportHost : String

/-- `api.protoModules` of pysnmp holds exactly protoVersion1 = 0 and
protoVersion2c = 1. -/
def protoModuleVersions : List Nat := [0, 1]

/-- `SNMP_VERSIONS` from trapperkeeper/constants.py (not under src/):
Modelled from the spec, the recognized versions are v1 and v2c (spec
section 3), indexed by the pysnmp version tag. -/
def SNMP_VERSIONS : List String := ["1", "2c"]

namespace TrapperCallback

/-- `TrapperCallback._send_mail(handler, trap, is_duplicate)`
(callbacks.py lines 46-72): early returns for duplicates without
`mail_on_duplicate`, missing mail rule, missing recipients; otherwise
render the subject and attempt the send, counting attempt, success and
(caught) failure. -/
def send_mail (env : Env) (handler : Handler) (trap : Trap)
    (is_duplicate : Bool) : List Event :=
  if is_duplicate ∧ ¬ handler.mail_on_duplicate then []
  else match handler.mail with
  | none => []
  | some mail =>
    if mail.recipients = [] then []
    else
      let subject := env.formatSubject mail.subject trap.oid
        (env.objIdName trap.oid) trap.host (env.resolver trap.host)
      match env.mailResult with
      | .ok =>
          [.incr "mail_sent_attempted",
           .mailSend mail.recipients subject,
           .incr "mail_sent_successful"]
      | .failure =>
          [.incr "mail_sent_attempted",
           .mailSend mail.recipients subject,
           .incr "mail_sent_failed",
           .log .warning "Failed to send e-mail for trap"]

/-- `transform_varbind(varbind)` (callbacks.py lines 206-220): from the
varbind's pretty dict build exactly the three derived bindings
name → pretty_value, oid → value, name:type → value_type.
The reads `d["name"]`, `d["oid"]`, `d["pretty_value"]`, `d["value"]`,
`d["value_type"]` of `d = varbind.to_dict(pretty=True)` resolve to the
corresponding `Varbind` fields by the fixed shape of `Varbind.to_dict`. -/
def transform_varbind_def (vb : Varbind) : Dict :=
  dupdate []
    [(vb.name, .str vb.pretty_value),
     (vb.oid, .str vb.value),
     (vb.name ++ ":type", .str vb.value_type)]

/-- The flat index document built by `_index_to_elasticsearch`
(callbacks.py lines 186-194): base fields, then every varbind's three
derived keys, then `notification_id` copied from `id`, then `mib_name`,
then `id` deleted. -/
def trapIndex (env : Env) (trap : Trap) : Dict :=
  let d0 : Dict := dupdate [] trap.to_dict
  let d1 := trap.varbinds.foldl (fun acc vb => dupdate acc (transform_varbind_def vb)) d0
  let d2 := dset d1 "notification_id" ((dget d1 "id").getD (.str ""))
  let d3 := dset d2 "mib_name" (.str (env.objIdName trap.oid))
  ddel d3 "id"

/-- `TrapperCallback._index_to_elasticsearch(trap)` (callbacks.py lines
171-198): stdout debug dumps, document construction, index dispatch. -/
def index_to_elasticsearch (env : Env) (trap : Trap) : List Event :=
  [.print] ++ [.indexDoc (trapIndex env trap)]

/-- Lines 124-130 of callbacks.py: apply the resolved handler policy to
the notification — set `severity` from the handler, `manager` to the
local hostname, and, when an expiration duration is configured (truthy
`handler.get("expiration", None)`), set
`expires = trap.sent + timedelta(**parse_time_string(...))`. -/
def applyPolicy (env : Env) (handler : Handler) (trap : Trap) : Trap :=
  let trap := { trap with
    severity := some handler.severity,
    manager := some env.hostname }
  match handler.expiration with
  | some s =>
    if s ≠ "" then
      { trap with expires := some (trap.sent + env.parseTimeString s) }
    else trap
  | none => trap

/-- Lines 143-164 of callbacks.py: the persistence attempt
(`conn.add` + `conn.commit`) and its four outcomes, with the exact order
of counter increments, rollbacks and log lines of each `except` clause. -/
def dbEvents (env : Env) (trap : Trap) : List Event :=
  match env.db with
  | .ok =>
    [.incr "db_write_attempted", .dbAdd trap, .dbCommit,
     .incr "db_write_successful"]
  | .operationalError =>
    [.incr "db_write_attempted", .dbAdd trap, .dbRollback,
     .log .warning "Failed to commit",
     .incr "db_write_failed"]
  | .invalidRequestError =>
    [.incr "db_write_attempted", .dbAdd trap,
     .incr "db_write_failed", .dbRollback,
     .log .warning "Bad state, rolling back transaction"]
  | .integrityError =>
    [.incr "db_write_attempted", .dbAdd trap,
     .incr "db_write_duplicate", .dbRollback,
     .log .info "Duplicate Trap",
     .log .debug "IntegrityError"]

/-- The `duplicate` flag of lines 143 and 159-161: false unless the
persistence attempt raised `IntegrityError`. -/
def duplicateFlag (env : Env) : Bool :=
  decide (env.db = DbOutcome.integrityError)

/-- Lines 139-169 of callbacks.py: the trace of an accepted
(non-blackholed) notification — acceptance log and counter, persistence
attempt, mail stage with the duplicate flag, indexing stage. -/
def acceptedTrace (env : Env) (handler : Handler) (trap : Trap) :
    List Event :=
  [.incr "traps_received",
   .log .info "Trap Received",
   .incr "traps_accepted"]
  ++ dbEvents env trap
  ++ send_mail env handler trap (duplicateFlag env)
  ++ index_to_elasticsearch env trap

/-- Lines 120-169 of callbacks.py: the pipeline from the Policy Resolver
stage on, entered with the validated notification.  The `dde_run(dde)`
call at line 121 has no surrounding try/except, so a raise there escapes
with nothing further executed. -/
def resolveAndProcess (env : Env) (trap : Trap) :
    List Event × Except Exn Unit :=
  match env.ddeRun trap (env.handlers trap.oid) with
  | .error e => ([], .error e)
  | .ok handler =>
    let trap := applyPolicy env handler trap
    if handler.blackhole then
      ([.incr "traps_received",
        .incr "traps_blackholed",
        .log .debug "Blackholed"], .ok ())
    else
      (acceptedTrace env handler trap, .ok ())

/-- `TrapperCallback._call` (callbacks.py lines 74-169): the per-message
pipeline.  Returns the trace of observable events together with `.ok ()`
when the body ran to completion (including every early `return`) or
`.error e` when an exception escaped the body.  The only uncaught raise
site in the model is the `dde_run(dde)` call at line 121, which has no
surrounding try/except. -/
def priv_call (env : Env) (msg : Msg) : List Event × Except Exn Unit :=
  if msg.wholeMsg = [] then ([], .ok ())
  else if msg.version ∉ protoModuleVersions then
    ([.incr "unsupported-notification",
      .log .error "Unsupported SNMP version"], .ok ())
  else
    match msg.decoded with
    | none =>
      ([.incr "unsupported-notification",
        .log .warning "Failed to receive trap"], .ok ())
    | some d =>
      if env.community ≠ "" ∧ d.community ≠ env.community then
        ([.incr "unauthenticated-notification",
          .log .warning "Received trap with invalid community"], .ok ())
      else if ¬ d.isTrapPdu then
        ([.incr "unsupported-notification",
          .log .warning "Received non-trap notification"], .ok ())
      else if msg.version ≠ 0 ∧ msg.version ≠ 1 then
        ([.incr "unsupported-notification",
          .log .warning "Received trap not in v1 or v2c"], .ok ())
      else
        match d.fromPdu with
        | none =>
          ([.incr "unsupported-notification",
            .log .warning "Invalid trap"], .ok ())
        | some trap => resolveAndProcess env trap

/-- `TrapperCallback.__call__` (callbacks.py lines 37-44): run `_call`
inside the per-message exception boundary; an escaped exception increments
`callback-failure` and is logged, never re-raised (the return type carries
no exception). -/
def call (env : Env) (msg : Msg) : List Event :=
  match priv_call env msg with
  | (tr, .ok _) => tr
  | (tr, .error _) =>
    tr ++ [.incr "callback-failure", .log .error "Callback Failed"]

end TrapperCallback

/-- Recognizes index-dispatch events (`index_trap_to_elasticsearch`). -/
def isIndexEvent : Event → Bool
  | .indexDoc _ => true
  | _ => false

/-- Recognizes `conn.add(trap)` events (the persistence attempt). -/
def isDbAddEvent : Event → Bool
  | .dbAdd _ => true
  | _ => false

/-- Recognizes mail-dispatch events (`send_trap_email`). -/
def isMailSendEvent : Event → Bool
  | .mailSend _ _ => true
  | _ => false

/-- Whether an `Except` outcome is a normal return. -/
def exceptOk : Except Exn Unit → Bool
  | .ok _ => true
  | .error _ => false

end Trapperkeeper

namespace Trapperkeeper

open TrapperCallback

/-- Any message that passes validation — non-empty payload, version tag in
`api.protoModules`, successful decode, community accepted, trap-class PDU,
successful `Notification.from_pdu` — drives `_call` into the Policy
Resolver stage of lines 120-169. -/
theorem priv_call_valid (env : Env) (w : List Nat) (v : Nat)
    (c host : String) (trap : Trap)
    (hw : w ≠ []) (hv : v = 0 ∨ v = 1)
    (hc : env.community = "" ∨ c = env.community) :
    priv_call env ⟨w, v, some ⟨c, true, some trap⟩, host⟩ =
      resolveAndProcess env trap := by
  rcases hv with hv | hv <;> subst hv <;>
    rcases hc with hc | hc <;>
      simp [priv_call, protoModuleVersions, hw, hc]

/-- Resolver outcome with a completing hook and no blackhole: the
accepted trace with the policy-applied notification. -/
theorem resolveAndProcess_accepted (env : Env) (trap : Trap)
    (handler : Handler)
    (hdde : env.ddeRun trap (env.handlers trap.oid) = .ok handler)
    (hbh : handler.blackhole = false) :
    resolveAndProcess env trap =
      (acceptedTrace env handler (applyPolicy env handler trap), .ok ()) := by
  unfold resolveAndProcess
  rw [hdde]
  simp [hbh]

/-- Resolver outcome with a completing hook and a blackholed policy: the
pipeline halts after the blackhole counter and a debug log. -/
theorem resolveAndProcess_blackholed (env : Env) (trap : Trap)
    (handler : Handler)
    (hdde : env.ddeRun trap (env.handlers trap.oid) = .ok handler)
    (hbh : handler.blackhole = true) :
    resolveAndProcess env trap =
      ([Event.incr "traps_received",
        Event.incr "traps_blackholed",
        Event.log .debug "Blackholed"], .ok ()) := by
  unfold resolveAndProcess
  rw [hdde]
  simp [hbh]

/-- Policy application always sets the notification's severity from the
resolved handler. -/
theorem applyPolicy_severity (env : Env) (h : Handler) (t : Trap) :
    (applyPolicy env h t).severity = some h.severity := by
  unfold applyPolicy
  cases hx : h.expiration <;> simp [hx] <;> split <;> simp

/-- Policy application always sets the notification's manager to the
local hostname. -/
theorem applyPolicy_manager (env : Env) (h : Handler) (t : Trap) :
    (applyPolicy env h t).manager = some env.hostname := by
  unfold applyPolicy
  cases hx : h.expiration <;> simp [hx] <;> split <;> simp

/-- With a truthy configured expiration duration the policy stage sets
`expires = sent + duration`. -/
theorem applyPolicy_expires_conf (env : Env) (h : Handler) (t : Trap)
    (s : String) (hs : h.expiration = some s) (hne : s ≠ "") :
    (applyPolicy env h t).expires =
      some (t.sent + env.parseTimeString s) := by
  unfold applyPolicy
  rw [hs]
  simp [hne]

/-- With no (or a falsy) configured expiration duration the policy stage
leaves `expires` untouched. -/
theorem applyPolicy_expires_unconf (env : Env) (h : Handler) (t : Trap)
    (hconf : expirationConfigured h.expiration = false) :
    (applyPolicy env h t).expires = t.expires := by
  unfold applyPolicy
  unfold expirationConfigured at hconf
  cases hx : h.expiration
  · simp
  · rw [hx] at hconf
    simp at hconf
    simp [hconf]

/-- The mail stage dispatches nothing to the database or the index. -/
theorem send_mail_no_index (env : Env) (h : Handler) (t : Trap)
    (d : Bool) : (send_mail env h t d).countP isIndexEvent = 0 := by
  unfold send_mail
  split
  · simp
  · split
    · simp
    · split
      · simp
      · split <;> simp [isIndexEvent]

/-- The mail stage never performs a persistence attempt. -/
theorem send_mail_no_dbAdd (env : Env) (h : Handler) (t : Trap)
    (d : Bool) : (send_mail env h t d).countP isDbAddEvent = 0 := by
  unfold send_mail
  split
  · simp
  · split
    · simp
    · split
      · simp
      · split <;> simp [isDbAddEvent]

/-- The mail stage only touches its own three counters. -/
theorem send_mail_other_counter (env : Env) (h : Handler) (t : Trap)
    (d : Bool) (c : String)
    (hc1 : c ≠ "mail_sent_attempted") (hc2 : c ≠ "mail_sent_successful")
    (hc3 : c ≠ "mail_sent_failed") :
    (send_mail env h t d).count (Event.incr c) = 0 := by
  unfold send_mail
  split
  · simp
  · split
    · simp
    · split
      · simp
      · split <;>
          simp [List.count_cons, hc1, hc2, hc3, Ne.symm hc1, Ne.symm hc2,
                Ne.symm hc3]

/-- A duplicate with `mail_on_duplicate` unset skips the whole mail
stage (callbacks.py lines 47-48). -/
theorem send_mail_suppressed (env : Env) (h : Handler) (t : Trap)
    (hflag : h.mail_on_duplicate = false) :
    send_mail env h t true = [] := by
  unfold send_mail
  simp [hflag]

/-- When a mail rule with recipients is configured and the duplicate
gate allows it, exactly one mail dispatch happens. -/
theorem send_mail_dispatches (env : Env) (h : Handler) (t : Trap)
    (d : Bool) (mr : MailRule)
    (hmail : h.mail = some mr) (hrec : mr.recipients ≠ [])
    (hperm : d = false ∨ h.mail_on_duplicate = true) :
    (send_mail env h t d).countP isMailSendEvent = 1 := by
  unfold send_mail
  rcases hperm with hp | hp <;>
    · rw [hmail]
      cases hmr : env.mailResult <;>
        simp [hp, hrec, isMailSendEvent]

/-- The persistence stage always contains exactly the one `conn.add`
of the notification being stored. -/
theorem dbEvents_dbAdd_mem (env : Env) (t : Trap) :
    Event.dbAdd t ∈ dbEvents env t := by
  unfold dbEvents
  split <;> simp

/-- The persistence stage attempts exactly one write. -/
theorem dbEvents_countP_dbAdd (env : Env) (t : Trap) :
    (dbEvents env t).countP isDbAddEvent = 1 := by
  unfold dbEvents
  split <;> simp [isDbAddEvent]

/-- The persistence stage increments `db_write_attempted` exactly once:
no retry in any outcome. -/
theorem dbEvents_attempted_once (env : Env) (t : Trap) :
    (dbEvents env t).count (Event.incr "db_write_attempted") = 1 := by
  unfold dbEvents
  split <;> simp [List.count_cons]

/-- The persistence stage performs no index dispatch. -/
theorem dbEvents_no_index (env : Env) (t : Trap) :
    (dbEvents env t).countP isIndexEvent = 0 := by
  unfold dbEvents
  split <;> simp [isIndexEvent]

/-- The persistence stage performs no mail dispatch. -/
theorem dbEvents_no_mailSend (env : Env) (t : Trap) :
    (dbEvents env t).countP isMailSendEvent = 0 := by
  unfold dbEvents
  split <;> simp [isMailSendEvent]

/-- The indexing stage dispatches exactly one document. -/
theorem index_countP_index (env : Env) (t : Trap) :
    (index_to_elasticsearch env t).countP isIndexEvent = 1 := by
  simp [index_to_elasticsearch, isIndexEvent]

/-- The indexing stage increments no counters. -/
theorem index_no_counter (env : Env) (t : Trap) (c : String) :
    (index_to_elasticsearch env t).count (Event.incr c) = 0 := by
  simp [index_to_elasticsearch, List.count_cons]

/-- The indexing stage performs no persistence attempt. -/
theorem index_no_dbAdd (env : Env) (t : Trap) :
    (index_to_elasticsearch env t).countP isDbAddEvent = 0 := by
  simp [index_to_elasticsearch, isDbAddEvent]

/-- The indexing stage performs no mail dispatch. -/
theorem index_no_mailSend (env : Env) (t : Trap) :
    (index_to_elasticsearch env t).countP isMailSendEvent = 0 := by
  simp [index_to_elasticsearch, isMailSendEvent]

/-- `_send_mail` never increments the callback-failure counter. -/
theorem cf_not_mem_send_mail (env : Env) (h : Handler) (t : Trap)
    (d : Bool) : Event.incr "callback-failure" ∉ send_mail env h t d := by
  unfold send_mail
  split
  · simp
  · split
    · simp
    · split
      · simp
      · split <;> simp

/-- The persistence attempt never increments the callback-failure counter. -/
theorem cf_not_mem_dbEvents (env : Env) (t : Trap) :
    Event.incr "callback-failure" ∉ dbEvents env t := by
  unfold dbEvents
  split <;> simp

/-- The indexing step never increments the callback-failure counter. -/
theorem cf_not_mem_index (env : Env) (t : Trap) :
    Event.incr "callback-failure" ∉ index_to_elasticsearch env t := by
  simp [index_to_elasticsearch]

/-- The Policy Resolver stage and everything after it never increments
the callback-failure counter. -/
theorem cf_not_mem_resolve (env : Env) (t : Trap) :
    Event.incr "callback-failure" ∉ (resolveAndProcess env t).1 := by
  unfold resolveAndProcess
  split
  · simp
  · split
    · simp
    · simp [acceptedTrace, cf_not_mem_send_mail, cf_not_mem_dbEvents,
            cf_not_mem_index]

/-- The body of `_call` never increments the callback-failure counter:
that counter belongs solely to the `__call__` boundary. -/
theorem cf_not_mem_priv_call (env : Env) (msg : Msg) :
    Event.incr "callback-failure" ∉ (priv_call env msg).1 := by
  rcases msg with ⟨w, v, dec, host⟩
  unfold priv_call
  split
  · simp
  · split
    · simp
    · split
      · simp
      · split
        · simp
        · split
          · simp
          · split
            · simp
            · split
              · simp
              · exact cf_not_mem_resolve _ _

/-- A minimal handler policy: default severity, no expiration, not a
blackhole, no mail rule. -/
def exHandler : Handler := ⟨"warning", none, false, false, none⟩

/-- A minimal validated trap notification with no varbinds. -/
def exTrap : Trap :=
  ⟨"10.1.2.3", "2c", "1.3.6.1.4.1.42.1", 1000, [], none, none, none, 7⟩

/-- A concrete environment: no community secret, a constant handler
table, identity name resolution, and the given hook / database / mail
behaviours. -/
def exEnv (dde : Trap → Handler → Except Exn Handler) (db : DbOutcome)
    (mr : MailResult) : Env :=
  ⟨"", "trapper01", fun _ => exHandler, dde, fun _ => 0, fun s => s,
   fun s => s, fun t _ _ _ _ => t, db, mr⟩

/-- An environment whose DDE enrichment hook raises. -/
def exEnvRaise : Env :=
  exEnv (fun _ _ => Except.error Exn.ddeError) DbOutcome.ok MailResult.ok

/-- A concrete well-formed v2c message carrying `exTrap`. -/
def exMsg : Msg := ⟨[1], 1, some ⟨"", true, some exTrap⟩, "10.1.2.3"⟩

/-- C1: the claim as stated is false on the code.  With a raising
enrichment hook on an otherwise valid trap, the exception escapes the
Policy Resolver stage (`_call` ends in an error, only caught by
`__call__`), and neither the persistence attempt nor any fan-out action
(mail, indexing) runs for that trap, while the claim demands that they
still run. -/
theorem claim_C1_counterexample :
    exceptOk (priv_call exEnvRaise exMsg).2 = false ∧
    (call exEnvRaise exMsg).countP isDbAddEvent = 0 ∧
    (call exEnvRaise exMsg).countP isIndexEvent = 0 ∧
    (call exEnvRaise exMsg).countP isMailSendEvent = 0 ∧
    (call exEnvRaise exMsg).count (Event.incr "db_write_attempted") = 0 ∧
    (call exEnvRaise exMsg).count (Event.incr "callback-failure") = 1 := by
  decide

/-- C1 (amended): for every validated trap notification, if the
enrichment hook raises, the exception propagates out of the Policy
Resolver stage — the rest of the pipeline (persistence and fan-out) does
not run for that trap — and it is caught only at the top-level callback
boundary, where the callback-failure counter is incremented and the
fault logged, so it still never reaches the caller. -/
theorem claim_C1_amended (env : Env) (w : List Nat) (v : Nat)
    (c host : String) (trap : Trap) (e : Exn)
    (hw : w ≠ []) (hv : v = 0 ∨ v = 1)
    (hc : env.community = "" ∨ c = env.community)
    (hdde : env.ddeRun trap (env.handlers trap.oid) = .error e) :
    priv_call env ⟨w, v, some ⟨c, true, some trap⟩, host⟩ = ([], .error e) ∧
    call env ⟨w, v, some ⟨c, true, some trap⟩, host⟩ =
      [Event.incr "callback-failure", Event.log .error "Callback Failed"] := by
  have h := priv_call_valid env w v c host trap hw hv hc
  have h1 : priv_call env ⟨w, v, some ⟨c, true, some trap⟩, host⟩ =
      ([], .error e) := by
    rw [h]; unfold resolveAndProcess; rw [hdde]
  exact ⟨h1, by simp [call, h1]⟩

/-- Witness for C1 (amended) at the concrete raising environment. -/
theorem claim_C1_amended_witness :
    priv_call exEnvRaise exMsg = ([], .error .ddeError) ∧
    call exEnvRaise exMsg =
      [Event.incr "callback-failure", Event.log .error "Callback Failed"] :=
  claim_C1_amended exEnvRaise [1] 1 "" "10.1.2.3" exTrap .ddeError
    (by decide) (Or.inr rfl) (Or.inl rfl) rfl

/-- C2: every invocation of `__call__` runs the pipeline inside the
exception boundary: when the body completes, the trace is exactly the
body's trace; when the body raises, the trace is the body's trace
followed by one callback-failure increment and an error log, and in
either case the callback-failure count is exactly the number of escaped
exceptions (1 or 0) — `call` returns a trace, never an exception. -/
theorem claim_C2_boundary (env : Env) (msg : Msg) :
    call env msg = (priv_call env msg).1 ++
      (if exceptOk (priv_call env msg).2 then []
       else [Event.incr "callback-failure",
             Event.log .error "Callback Failed"]) ∧
    (call env msg).count (Event.incr "callback-failure") =
      (if exceptOk (priv_call env msg).2 then 0 else 1) := by
  have hnm := cf_not_mem_priv_call env msg
  rcases hpc : priv_call env msg with ⟨tr, exc⟩
  rw [hpc] at hnm
  cases exc <;>
    simp [call, hpc, exceptOk, List.count_append,
          List.count_eq_zero.mpr hnm]

/-- The mail stage never commits a transaction. -/
theorem send_mail_no_dbCommit (env : Env) (h : Handler) (t : Trap)
    (d : Bool) : (send_mail env h t d).count Event.dbCommit = 0 := by
  unfold send_mail
  split
  · simp
  · split
    · simp
    · split
      · simp
      · split <;> simp [List.count_cons]

/-- The indexing stage never commits a transaction. -/
theorem index_no_dbCommit (env : Env) (t : Trap) :
    (index_to_elasticsearch env t).count Event.dbCommit = 0 := by
  simp [index_to_elasticsearch, List.count_cons]

/-- The persistence stage only touches its own four counters. -/
theorem dbEvents_other_counter (env : Env) (t : Trap) (c : String)
    (h1 : c ≠ "db_write_attempted") (h2 : c ≠ "db_write_successful")
    (h3 : c ≠ "db_write_failed") (h4 : c ≠ "db_write_duplicate") :
    (dbEvents env t).count (Event.incr c) = 0 := by
  unfold dbEvents
  split <;>
    simp [List.count_cons, h1, h2, h3, h4, Ne.symm h1, Ne.symm h2,
          Ne.symm h3, Ne.symm h4]

/-- C10: an empty (falsy) payload makes the callback a silent no-op:
`_call` returns immediately with an empty trace — no counter, no log, no
database, mail or index effect — and `__call__` adds nothing. -/
theorem claim_C10_empty_message (env : Env) (v : Nat) (d : Option Decoded)
    (host : String) :
    priv_call env ⟨[], v, d, host⟩ = ([], .ok ()) ∧
    call env ⟨[], v, d, host⟩ = [] := by
  constructor <;> simp [call, priv_call]


/-- A concrete environment with a no-op hook, whose handler table is an
empty `handlersFromTable` (every lookup misses and yields the default). -/
def exEnvC3 : Env :=
  ⟨"", "trapper01", handlersFromTable [] exHandler, fun _ h => .ok h,
   fun _ => 0, fun s => s, fun s => s, fun t _ _ _ _ => t, .ok, .ok⟩

/-- C3: for a validated trap whose OID has no entry in the policy table,
the lookup yields the default policy (no error) and the pipeline
proceeds: severity and manager are assigned, the persistence attempt is
made, and the fan-out (indexing) stage runs, instead of the trap being
aborted. -/
theorem claim_C3_no_policy_default (env : Env)
    (table : List (String × Handler)) (dflt h2 : Handler) (w : List Nat)
    (v : Nat) (c host : String) (trap : Trap)
    (hw : w ≠ []) (hv : v = 0 ∨ v = 1)
    (hc : env.community = "" ∨ c = env.community)
    (hh : env.handlers = handlersFromTable table dflt)
    (hmiss : table.find? (fun kv => kv.1 = trap.oid) = none)
    (hdde : env.ddeRun trap dflt = .ok h2)
    (hbh : h2.blackhole = false) :
    priv_call env ⟨w, v, some ⟨c, true, some trap⟩, host⟩ =
      (acceptedTrace env h2 (applyPolicy env h2 trap), .ok ()) ∧
    Event.incr "traps_accepted" ∈
      acceptedTrace env h2 (applyPolicy env h2 trap) ∧
    Event.dbAdd (applyPolicy env h2 trap) ∈
      acceptedTrace env h2 (applyPolicy env h2 trap) ∧
    (acceptedTrace env h2 (applyPolicy env h2 trap)).countP isIndexEvent
      = 1 ∧
    (applyPolicy env h2 trap).severity = some h2.severity ∧
    (applyPolicy env h2 trap).manager = some env.hostname := by
  have hh2 : env.handlers trap.oid = dflt := by
    rw [hh]; unfold handlersFromTable; rw [hmiss]; rfl
  have h1 := priv_call_valid env w v c host trap hw hv hc
  have hacc := resolveAndProcess_accepted env trap h2
    (by rw [hh2]; exact hdde) hbh
  refine ⟨h1.trans hacc, ?_, ?_, ?_,
    applyPolicy_severity env h2 trap, applyPolicy_manager env h2 trap⟩
  · simp [acceptedTrace]
  · have hm := dbEvents_dbAdd_mem env (applyPolicy env h2 trap)
    simp only [acceptedTrace, List.mem_append]
    tauto
  · simp [acceptedTrace, List.countP_append, send_mail_no_index,
          dbEvents_no_index, index_countP_index, isIndexEvent]

/-- Witness for C3 at the empty table: the default policy applies and
the trap is accepted, persisted and indexed. -/
theorem claim_C3_witness :
    priv_call exEnvC3 exMsg =
      (acceptedTrace exEnvC3 exHandler (applyPolicy exEnvC3 exHandler exTrap),
       .ok ()) ∧
    Event.incr "traps_accepted" ∈
      acceptedTrace exEnvC3 exHandler (applyPolicy exEnvC3 exHandler exTrap) ∧
    Event.dbAdd (applyPolicy exEnvC3 exHandler exTrap) ∈
      acceptedTrace exEnvC3 exHandler (applyPolicy exEnvC3 exHandler exTrap) := by
  obtain ⟨e1, e2, e3, _, _, _⟩ :=
    claim_C3_no_policy_default exEnvC3 [] exHandler exHandler [1] 1 ""
      "10.1.2.3" exTrap (by decide) (Or.inr rfl) (Or.inl rfl) rfl rfl rfl rfl
  exact ⟨e1, e2, e3⟩

/-- An environment whose persistence attempt fails with
`OperationalError` (store unreachable). -/
def exEnvC4 : Env := exEnv (fun _ h => .ok h) .operationalError .ok

/-- C4: a transient persistence failure (OperationalError or
InvalidRequestError) rolls the write back, increments the failure
counter, never commits, makes no second attempt (no retry), and the
fan-out stage — the mail step with duplicate = false and the indexing
step — still runs on the in-memory notification. -/
theorem claim_C4_transient_failure (env : Env) (w : List Nat) (v : Nat)
    (c host : String) (trap : Trap) (handler : Handler)
    (hw : w ≠ []) (hv : v = 0 ∨ v = 1)
    (hc : env.community = "" ∨ c = env.community)
    (hdde : env.ddeRun trap (env.handlers trap.oid) = .ok handler)
    (hbh : handler.blackhole = false)
    (hdb : env.db = .operationalError ∨ env.db = .invalidRequestError) :
    priv_call env ⟨w, v, some ⟨c, true, some trap⟩, host⟩ =
      (acceptedTrace env handler (applyPolicy env handler trap), .ok ()) ∧
    Event.dbRollback ∈
      acceptedTrace env handler (applyPolicy env handler trap) ∧
    Event.incr "db_write_failed" ∈
      acceptedTrace env handler (applyPolicy env handler trap) ∧
    (acceptedTrace env handler (applyPolicy env handler trap)).count
      Event.dbCommit = 0 ∧
    (acceptedTrace env handler (applyPolicy env handler trap)).count
      (Event.incr "db_write_successful") = 0 ∧
    (acceptedTrace env handler (applyPolicy env handler trap)).count
      (Event.incr "db_write_attempted") = 1 ∧
    (acceptedTrace env handler (applyPolicy env handler trap)).countP
      isDbAddEvent = 1 ∧
    duplicateFlag env = false ∧
    acceptedTrace env handler (applyPolicy env handler trap) =
      [Event.incr "traps_received", Event.log .info "Trap Received",
       Event.incr "traps_accepted"]
      ++ dbEvents env (applyPolicy env handler trap)
      ++ send_mail env handler (applyPolicy env handler trap) false
      ++ index_to_elasticsearch env (applyPolicy env handler trap) ∧
    (acceptedTrace env handler (applyPolicy env handler trap)).countP
      isIndexEvent = 1 := by
  have h1 := priv_call_valid env w v c host trap hw hv hc
  have hacc := resolveAndProcess_accepted env trap handler hdde hbh
  have hdup : duplicateFlag env = false := by
    rcases hdb with hdb | hdb <;> simp [duplicateFlag, hdb]
  refine ⟨h1.trans hacc, ?_, ?_, ?_, ?_, ?_, ?_, hdup, ?_, ?_⟩ <;>
    rcases hdb with hdb | hdb <;>
      simp [acceptedTrace, dbEvents, hdb, hdup, List.count_append,
            List.countP_append, List.count_cons, send_mail_other_counter,
            send_mail_no_dbCommit, send_mail_no_dbAdd, send_mail_no_index,
            index_no_counter, index_no_dbCommit, index_no_dbAdd,
            index_countP_index, isDbAddEvent, isIndexEvent]

/-- Witness for C4: with an OperationalError store, the trap is rolled
back, counted failed, still mailed/indexed. -/
theorem claim_C4_witness :
    Event.dbRollback ∈
      acceptedTrace exEnvC4 exHandler (applyPolicy exEnvC4 exHandler exTrap) ∧
    Event.incr "db_write_failed" ∈
      acceptedTrace exEnvC4 exHandler (applyPolicy exEnvC4 exHandler exTrap) ∧
    (acceptedTrace exEnvC4 exHandler
      (applyPolicy exEnvC4 exHandler exTrap)).countP isIndexEvent = 1 := by
  obtain ⟨_, e2, e3, _, _, _, _, _, _, e10⟩ :=
    claim_C4_transient_failure exEnvC4 [1] 1 "" "10.1.2.3" exTrap exHandler
      (by decide) (Or.inr rfl) (Or.inl rfl) rfl rfl (Or.inl rfl)
  exact ⟨e2, e3, e10⟩

/-- An environment whose persistence attempt raises `IntegrityError`
(uniqueness violation). -/
def exEnvC5 : Env := exEnv (fun _ h => .ok h) .integrityError .ok

/-- C5: a uniqueness violation rolls the write back, counts a duplicate
(not a failure, and no commit), still indexes, and suppresses mail
dispatch unless the policy's `mail_on_duplicate` flag is set (in which
case a configured rule with recipients dispatches exactly once). -/
theorem claim_C5_duplicate (env : Env) (w : List Nat) (v : Nat)
    (c host : String) (trap : Trap) (handler : Handler)
    (hw : w ≠ []) (hv : v = 0 ∨ v = 1)
    (hc : env.community = "" ∨ c = env.community)
    (hdde : env.ddeRun trap (env.handlers trap.oid) = .ok handler)
    (hbh : handler.blackhole = false)
    (hdb : env.db = .integrityError) :
    priv_call env ⟨w, v, some ⟨c, true, some trap⟩, host⟩ =
      (acceptedTrace env handler (applyPolicy env handler trap), .ok ()) ∧
    Event.dbRollback ∈
      acceptedTrace env handler (applyPolicy env handler trap) ∧
    (acceptedTrace env handler (applyPolicy env handler trap)).count
      (Event.incr "db_write_duplicate") = 1 ∧
    (acceptedTrace env handler (applyPolicy env handler trap)).count
      (Event.incr "db_write_failed") = 0 ∧
    (acceptedTrace env handler (applyPolicy env handler trap)).count
      Event.dbCommit = 0 ∧
    duplicateFlag env = true ∧
    (acceptedTrace env handler (applyPolicy env handler trap)).countP
      isIndexEvent = 1 ∧
    (handler.mail_on_duplicate = false →
      (acceptedTrace env handler (applyPolicy env handler trap)).countP
        isMailSendEvent = 0) ∧
    (∀ mr, handler.mail = some mr → mr.recipients ≠ [] →
      handler.mail_on_duplicate = true →
      (acceptedTrace env handler (applyPolicy env handler trap)).countP
        isMailSendEvent = 1) := by
  have h1 := priv_call_valid env w v c host trap hw hv hc
  have hacc := resolveAndProcess_accepted env trap handler hdde hbh
  have hdup : duplicateFlag env = true := by simp [duplicateFlag, hdb]
  refine ⟨h1.trans hacc, ?_, ?_, ?_, ?_, hdup, ?_, ?_, ?_⟩
  · simp [acceptedTrace, dbEvents, hdb]
  · simp [acceptedTrace, dbEvents, hdb, List.count_append,
          List.count_cons, send_mail_other_counter, index_no_counter]
  · simp [acceptedTrace, dbEvents, hdb, List.count_append,
          List.count_cons, send_mail_other_counter, index_no_counter]
  · simp [acceptedTrace, dbEvents, hdb, List.count_append,
          List.count_cons, send_mail_no_dbCommit, index_no_dbCommit]
  · simp [acceptedTrace, List.countP_append, send_mail_no_index,
          dbEvents_no_index, index_countP_index, isIndexEvent]
  · intro hflag
    have hsup := send_mail_suppressed env handler
      (applyPolicy env handler trap) hflag
    simp [acceptedTrace, hdup, hsup, List.countP_append,
          dbEvents_no_mailSend, index_no_mailSend, isMailSendEvent]
  · intro mr hmail hrec hflag
    have hone := send_mail_dispatches env handler
      (applyPolicy env handler trap) true mr hmail hrec (Or.inr hflag)
    simp [acceptedTrace, hdup, hone, List.countP_append,
          dbEvents_no_mailSend, index_no_mailSend, isMailSendEvent]

/-- Witness for C5: with an IntegrityError store and a policy without
`mail_on_duplicate`, the duplicate is counted, indexed, and no mail is
dispatched. -/
theorem claim_C5_witness :
    (acceptedTrace exEnvC5 exHandler
      (applyPolicy exEnvC5 exHandler exTrap)).count
      (Event.incr "db_write_duplicate") = 1 ∧
    (acceptedTrace exEnvC5 exHandler
      (applyPolicy exEnvC5 exHandler exTrap)).count
      (Event.incr "db_write_failed") = 0 ∧
    (acceptedTrace exEnvC5 exHandler
      (applyPolicy exEnvC5 exHandler exTrap)).countP isIndexEvent = 1 ∧
    (acceptedTrace exEnvC5 exHandler
      (applyPolicy exEnvC5 exHandler exTrap)).countP isMailSendEvent = 0 := by
  obtain ⟨_, _, e3, e4, _, _, e7, e8, _⟩ :=
    claim_C5_duplicate exEnvC5 [1] 1 "" "10.1.2.3" exTrap exHandler
      (by decide) (Or.inr rfl) (Or.inl rfl) rfl rfl rfl
  exact ⟨e3, e4, e7, e8 rfl⟩

/-- A handler policy with the blackhole flag set. -/
def exHandlerBH : Handler := ⟨"warning", none, true, false, none⟩

/-- An environment resolving every OID to the blackhole policy. -/
def exEnvC6 : Env :=
  ⟨"", "trapper01", fun _ => exHandlerBH, fun _ h => .ok h, fun _ => 0,
   fun s => s, fun s => s, fun t _ _ _ _ => t, .ok, .ok⟩

/-- C6: when the resolved policy has the blackhole flag, the pipeline
halts after a blackhole counter increment and a debug log line: no
persistence attempt, no mail, no indexing, and `traps_accepted` is never
incremented. -/
theorem claim_C6_blackhole (env : Env) (w : List Nat) (v : Nat)
    (c host : String) (trap : Trap) (handler : Handler)
    (hw : w ≠ []) (hv : v = 0 ∨ v = 1)
    (hc : env.community = "" ∨ c = env.community)
    (hdde : env.ddeRun trap (env.handlers trap.oid) = .ok handler)
    (hbh : handler.blackhole = true) :
    priv_call env ⟨w, v, some ⟨c, true, some trap⟩, host⟩ =
      ([Event.incr "traps_received", Event.incr "traps_blackholed",
        Event.log .debug "Blackholed"], .ok ()) ∧
    (priv_call env ⟨w, v, some ⟨c, true, some trap⟩, host⟩).1.count
      (Event.incr "traps_accepted") = 0 ∧
    (priv_call env ⟨w, v, some ⟨c, true, some trap⟩, host⟩).1.count
      (Event.incr "db_write_attempted") = 0 ∧
    (priv_call env ⟨w, v, some ⟨c, true, some trap⟩, host⟩).1.countP
      isDbAddEvent = 0 ∧
    (priv_call env ⟨w, v, some ⟨c, true, some trap⟩, host⟩).1.countP
      isMailSendEvent = 0 ∧
    (priv_call env ⟨w, v, some ⟨c, true, some trap⟩, host⟩).1.countP
      isIndexEvent = 0 ∧
    Event.log .debug "Blackholed" ∈
      (priv_call env ⟨w, v, some ⟨c, true, some trap⟩, host⟩).1 := by
  have heq := (priv_call_valid env w v c host trap hw hv hc).trans
    (resolveAndProcess_blackholed env trap handler hdde hbh)
  refine ⟨heq, ?_, ?_, ?_, ?_, ?_, ?_⟩ <;> rw [heq] <;> decide

/-- Witness for C6 at the blackhole environment. -/
theorem claim_C6_witness :
    priv_call exEnvC6 exMsg =
      ([Event.incr "traps_received", Event.incr "traps_blackholed",
        Event.log .debug "Blackholed"], .ok ()) ∧
    (priv_call exEnvC6 exMsg).1.count (Event.incr "traps_accepted") = 0 := by
  obtain ⟨e1, e2, _, _, _, _, _⟩ :=
    claim_C6_blackhole exEnvC6 [1] 1 "" "10.1.2.3" exTrap exHandlerBH
      (by decide) (Or.inr rfl) (Or.inl rfl) rfl rfl
  exact ⟨e1, e2⟩

/-- A handler policy with a configured mail rule and recipients. -/
def exHandlerMail : Handler :=
  ⟨"warning", none, false, false, some ⟨["oncall"], "trap received"⟩⟩

/-- An environment with a mail rule everywhere and a failing mail
transport. -/
def exEnvC7 : Env :=
  ⟨"", "trapper01", fun _ => exHandlerMail, fun _ h => .ok h, fun _ => 0,
   fun s => s, fun s => s, fun t _ _ _ _ => t, .ok, .failure⟩

/-- C7: when the alerting step runs with a mail rule and recipients and
the mail transport fails, the failure is caught inside `_send_mail`
(counted once and logged as a warning), `_call` still completes, the
indexing step still runs, and the boundary adds no callback-failure. -/
theorem claim_C7_mail_failure (env : Env) (w : List Nat) (v : Nat)
    (c host : String) (trap : Trap) (handler : Handler) (mr : MailRule)
    (hw : w ≠ []) (hv : v = 0 ∨ v = 1)
    (hc : env.community = "" ∨ c = env.community)
    (hdde : env.ddeRun trap (env.handlers trap.oid) = .ok handler)
    (hbh : handler.blackhole = false)
    (hmail : handler.mail = some mr) (hrec : mr.recipients ≠ [])
    (hperm : duplicateFlag env = false ∨ handler.mail_on_duplicate = true)
    (hfail : env.mailResult = .failure) :
    priv_call env ⟨w, v, some ⟨c, true, some trap⟩, host⟩ =
      (acceptedTrace env handler (applyPolicy env handler trap), .ok ()) ∧
    call env ⟨w, v, some ⟨c, true, some trap⟩, host⟩ =
      acceptedTrace env handler (applyPolicy env handler trap) ∧
    (acceptedTrace env handler (applyPolicy env handler trap)).count
      (Event.incr "mail_sent_failed") = 1 ∧
    Event.log .warning "Failed to send e-mail for trap" ∈
      acceptedTrace env handler (applyPolicy env handler trap) ∧
    (acceptedTrace env handler (applyPolicy env handler trap)).count
      (Event.incr "callback-failure") = 0 ∧
    (acceptedTrace env handler (applyPolicy env handler trap)).countP
      isIndexEvent = 1 := by
  have h1 := priv_call_valid env w v c host trap hw hv hc
  have hacc := resolveAndProcess_accepted env trap handler hdde hbh
  have heq := h1.trans hacc
  have hsm : send_mail env handler (applyPolicy env handler trap)
      (duplicateFlag env) =
      [Event.incr "mail_sent_attempted",
       Event.mailSend mr.recipients
         (env.formatSubject mr.subject (applyPolicy env handler trap).oid
           (env.objIdName (applyPolicy env handler trap).oid)
           (applyPolicy env handler trap).host
           (env.resolver (applyPolicy env handler trap).host)),
       Event.incr "mail_sent_failed",
       Event.log .warning "Failed to send e-mail for trap"] := by
    unfold send_mail
    rcases hperm with hp | hp <;> simp [hp, hmail, hrec, hfail]
  refine ⟨heq, ?_, ?_, ?_, ?_, ?_⟩
  · simp [call, heq]
  · simp [acceptedTrace, hsm, List.count_append, List.count_cons,
          dbEvents_other_counter, index_no_counter]
  · simp [acceptedTrace, hsm]
  · simp [acceptedTrace, hsm, List.count_append, List.count_cons,
          dbEvents_other_counter, index_no_counter]
  · simp [acceptedTrace, List.countP_append, send_mail_no_index,
          dbEvents_no_index, index_countP_index, isIndexEvent]

/-- Witness for C7 at the failing-transport environment. -/
theorem claim_C7_witness :
    (acceptedTrace exEnvC7 exHandlerMail
      (applyPolicy exEnvC7 exHandlerMail exTrap)).count
      (Event.incr "mail_sent_failed") = 1 ∧
    (acceptedTrace exEnvC7 exHandlerMail
      (applyPolicy exEnvC7 exHandlerMail exTrap)).countP
      isIndexEvent = 1 := by
  obtain ⟨_, _, e3, _, _, e6⟩ :=
    claim_C7_mail_failure exEnvC7 [1] 1 "" "10.1.2.3" exTrap exHandlerMail
      ⟨["oncall"], "trap received"⟩ (by decide) (Or.inr rfl) (Or.inl rfl)
      rfl rfl rfl (by decide) (Or.inl rfl) rfl
  exact ⟨e3, e6⟩

/-- A handler policy with a configured expiration duration. -/
def exHandlerExp : Handler := ⟨"critical", some "1d", false, false, none⟩

/-- An environment resolving every OID to the expiring policy, with the
duration string parsing to 86400. -/
def exEnvC8 : Env :=
  ⟨"", "trapper01", fun _ => exHandlerExp, fun _ h => .ok h,
   fun _ => 86400, fun s => s, fun s => s, fun t _ _ _ _ => t, .ok, .ok⟩

/-- C8: for a trap with sent timestamp T whose resolved policy
configures an expiration duration, the notification handed to the
persistence attempt carries `expires = T + D` where D is the parsed
duration; with no (or a falsy) configured duration, `expires` is left
exactly as it was (unset for a freshly decoded notification). -/
theorem claim_C8_expiration (env : Env) (w : List Nat) (v : Nat)
    (c host : String) (trap : Trap) (handler : Handler)
    (hw : w ≠ []) (hv : v = 0 ∨ v = 1)
    (hc : env.community = "" ∨ c = env.community)
    (hdde : env.ddeRun trap (env.handlers trap.oid) = .ok handler)
    (hbh : handler.blackhole = false) :
    priv_call env ⟨w, v, some ⟨c, true, some trap⟩, host⟩ =
      (acceptedTrace env handler (applyPolicy env handler trap), .ok ()) ∧
    Event.dbAdd (applyPolicy env handler trap) ∈
      acceptedTrace env handler (applyPolicy env handler trap) ∧
    (∀ s, handler.expiration = some s → s ≠ "" →
      (applyPolicy env handler trap).expires =
        some (trap.sent + env.parseTimeString s)) ∧
    (expirationConfigured handler.expiration = false →
      (applyPolicy env handler trap).expires = trap.expires) := by
  have h1 := priv_call_valid env w v c host trap hw hv hc
  have hacc := resolveAndProcess_accepted env trap handler hdde hbh
  refine ⟨h1.trans hacc, ?_,
    fun s hs hne => applyPolicy_expires_conf env handler trap s hs hne,
    fun hconf => applyPolicy_expires_unconf env handler trap hconf⟩
  have hm := dbEvents_dbAdd_mem env (applyPolicy env handler trap)
  simp only [acceptedTrace, List.mem_append]
  tauto

/-- Witness for C8: sent = 1000 and a 86400-unit duration give
expires = 87400, on the notification actually handed to `conn.add`. -/
theorem claim_C8_witness :
    (applyPolicy exEnvC8 exHandlerExp exTrap).expires = some 87400 ∧
    Event.dbAdd (applyPolicy exEnvC8 exHandlerExp exTrap) ∈
      acceptedTrace exEnvC8 exHandlerExp
        (applyPolicy exEnvC8 exHandlerExp exTrap) := by
  obtain ⟨_, e2, e3, _⟩ :=
    claim_C8_expiration exEnvC8 [1] 1 "" "10.1.2.3" exTrap exHandlerExp
      (by decide) (Or.inr rfl) (Or.inl rfl) rfl rfl
  exact ⟨e3 "1d" rfl (by decide), e2⟩

/-- Looking up the key just assigned yields the assigned value. -/
theorem dget_dset_self (d : Dict) (k : String) (v : DVal) :
    dget (dset d k v) k = some v := by
  induction d with
  | nil => simp [dset, dget]
  | cons kv rest ih =>
    by_cases h : kv.1 = k
    · simp [dset, h, dget]
    · simpa [dset, h, dget] using ih

/-- Assignment leaves every other key's binding unchanged. -/
theorem dget_dset_ne (d : Dict) (k : String) (v : DVal) (q : String)
    (h : q ≠ k) : dget (dset d k v) q = dget d q := by
  induction d with
  | nil => simp [dset, dget, Ne.symm h]
  | cons kv rest ih =>
    by_cases hk : kv.1 = k
    · subst hk
      simp [dset, dget, Ne.symm h]
    · by_cases hq : kv.1 = q
      · simp [dset, hk, dget, hq, h]
      · simpa [dset, hk, dget, hq] using ih

/-- Deleting a key removes its binding. -/
theorem dget_ddel_self (d : Dict) (k : String) :
    dget (ddel d k) k = none := by
  induction d with
  | nil => simp [ddel, dget]
  | cons kv rest ih =>
    by_cases h : kv.1 = k
    · simpa [ddel, h, dget] using ih
    · simpa [ddel, h, dget] using ih

/-- Deletion leaves every other key's binding unchanged. -/
theorem dget_ddel_ne (d : Dict) (k : String) (q : String) (h : q ≠ k) :
    dget (ddel d k) q = dget d q := by
  induction d with
  | nil => simp [ddel, dget]
  | cons kv rest ih =>
    by_cases hk : kv.1 = k
    · subst hk
      simpa [ddel, dget, Ne.symm h] using ih
    · by_cases hq : kv.1 = q
      · simp [ddel, hk, dget, hq, h]
      · simpa [ddel, hk, dget, hq] using ih

/-- One step of `d.update(e)`. -/
theorem dupdate_cons (d : Dict) (kv : String × DVal) (e : Dict) :
    dupdate d (kv :: e) = dupdate (dset d kv.1 kv.2) e := rfl

/-- Updating with bindings that avoid a key leaves that key's binding
unchanged. -/
theorem dget_dupdate_notmem (e d : Dict) (k : String)
    (h : ∀ kv ∈ e, kv.1 ≠ k) : dget (dupdate d e) k = dget d k := by
  induction e generalizing d with
  | nil => simp [dupdate]
  | cons kv rest ih =>
    rw [dupdate_cons, ih _ (fun x hx => h x (List.mem_cons_of_mem kv hx)),
        dget_dset_ne]
    exact Ne.symm (h kv (List.mem_cons_self kv rest))

/-- Updating with duplicate-free bindings makes each of them the final
binding of its key. -/
theorem dget_dupdate_mem (e d : Dict) (k : String) (v : DVal)
    (hnod : (e.map Prod.fst).Nodup) (hmem : (k, v) ∈ e) :
    dget (dupdate d e) k = some v := by
  induction e generalizing d with
  | nil => simp at hmem
  | cons kv rest ih =>
    rcases List.mem_cons.mp hmem with heq | hmem2
    · subst heq
      rw [dupdate_cons]
      have hrest : ∀ x ∈ rest, x.1 ≠ k := by
        intro x hx hxk
        have hmm : x.1 ∈ rest.map Prod.fst :=
          List.mem_map_of_mem Prod.fst hx
        rw [hxk] at hmm
        exact (List.nodup_cons.mp hnod).1 hmm
      rw [dget_dupdate_notmem rest _ k hrest]
      exact dget_dset_self d k v
    · rw [dupdate_cons]
      exact ih _ (List.nodup_cons.mp hnod).2 hmem2

/-- The three document keys a varbind contributes:
symbolic name, raw OID, and name:type. -/
def vbKeys (vb : Varbind) : List String :=
  [vb.name, vb.oid, vb.name ++ ":type"]

/-- All keys contributed by a list of varbinds, in order. -/
def allVbKeys (vbs : List Varbind) : List String :=
  vbs.foldr (fun vb acc => vbKeys vb ++ acc) []

/-- Unfolding `allVbKeys` over cons. -/
theorem allVbKeys_cons (vb : Varbind) (vbs : List Varbind) :
    allVbKeys (vb :: vbs) = vbKeys vb ++ allVbKeys vbs := rfl

/-- A key occurs among a varbind list's keys iff some member
contributes it. -/
theorem mem_allVbKeys (vbs : List Varbind) (k : String) :
    k ∈ allVbKeys vbs ↔ ∃ vb ∈ vbs, k ∈ vbKeys vb := by
  induction vbs with
  | nil => simp [allVbKeys]
  | cons vb rest ih => simp [allVbKeys_cons, ih]

/-- With its three keys pairwise distinct, `transform_varbind` is the
literal three-binding dict of the code comment. -/
theorem transform_eq (vb : Varbind)
    (h1 : vb.name ≠ vb.oid) (h2 : vb.name ≠ vb.name ++ ":type")
    (h3 : vb.oid ≠ vb.name ++ ":type") :
    transform_varbind_def vb =
      [(vb.name, .str vb.pretty_value),
       (vb.oid, .str vb.value),
       (vb.name ++ ":type", .str vb.value_type)] := by
  simp [transform_varbind_def, dupdate, dset, h1, h2, h3,
        Ne.symm h1, Ne.symm h2, Ne.symm h3]

/-- An assigned dict's bindings carry the assigned key or come from the
original dict. -/
theorem dset_keys (d : Dict) (k : String) (v : DVal) :
    ∀ kv ∈ dset d k v, kv.1 = k ∨ kv ∈ d := by
  induction d with
  | nil =>
    intro kv hkv
    simp [dset] at hkv
    subst hkv
    exact Or.inl rfl
  | cons a rest ih =>
    intro kv hkv
    by_cases h : a.1 = k
    · simp [dset, h] at hkv
      rcases hkv with he | hm
      · subst he; exact Or.inl rfl
      · exact Or.inr (List.mem_cons_of_mem a hm)
    · simp [dset, h] at hkv
      rcases hkv with he | hm
      · rw [he]; exact Or.inr (List.mem_cons_self a rest)
      · rcases ih kv hm with h1 | h1
        · exact Or.inl h1
        · exact Or.inr (List.mem_cons_of_mem a h1)

/-- Every binding of `transform_varbind` carries one of the varbind's
three keys. -/
theorem transform_keys (vb : Varbind) :
    ∀ kv ∈ transform_varbind_def vb, kv.1 ∈ vbKeys vb := by
  intro kv hkv
  have he : transform_varbind_def vb =
      dset (dset (dset [] vb.name (.str vb.pretty_value))
        vb.oid (.str vb.value))
        (vb.name ++ ":type") (.str vb.value_type) := rfl
  rw [he] at hkv
  rcases dset_keys _ _ _ kv hkv with h | h
  · simp [vbKeys, h]
  rcases dset_keys _ _ _ kv h with h' | h'
  · simp [vbKeys, h']
  rcases dset_keys _ _ _ kv h' with h2 | h2
  · simp [vbKeys, h2]
  · simp at h2

/-- Folding varbind updates whose keys all avoid `k` leaves `k`'s
binding unchanged. -/
theorem vb_fold_notmem (vbs : List Varbind) (d : Dict) (k : String)
    (h : ∀ vb ∈ vbs, k ∉ vbKeys vb) :
    dget (vbs.foldl
      (fun acc vb => dupdate acc (transform_varbind_def vb)) d) k
      = dget d k := by
  induction vbs generalizing d with
  | nil => rfl
  | cons vb rest ih =>
    rw [List.foldl_cons,
        ih _ (fun x hx => h x (List.mem_cons_of_mem vb hx)),
        dget_dupdate_notmem]
    intro kv hkv hk1
    exact h vb (List.mem_cons_self vb rest)
      (hk1 ▸ transform_keys vb kv hkv)

/-- Under globally duplicate-free varbind keys, every varbind of the
list ends with exactly its three bindings in the folded document. -/
theorem vb_fold_hit (vbs : List Varbind) (d : Dict) (vb : Varbind)
    (hmem : vb ∈ vbs) (hnod : (allVbKeys vbs).Nodup) :
    dget (vbs.foldl
      (fun acc x => dupdate acc (transform_varbind_def x)) d) vb.name
      = some (.str vb.pretty_value) ∧
    dget (vbs.foldl
      (fun acc x => dupdate acc (transform_varbind_def x)) d) vb.oid
      = some (.str vb.value) ∧
    dget (vbs.foldl
      (fun acc x => dupdate acc (transform_varbind_def x)) d)
      (vb.name ++ ":type") = some (.str vb.value_type) := by
  induction vbs generalizing d with
  | nil => simp at hmem
  | cons x rest ih =>
    rw [allVbKeys_cons, List.nodup_append] at hnod
    obtain ⟨hnx, hnrest, hdisj⟩ := hnod
    rcases List.mem_cons.mp hmem with heq | hmem2
    · subst heq
      have hnx' := hnx
      simp only [vbKeys, List.nodup_cons, List.mem_cons,
        List.mem_singleton, List.not_mem_nil, not_false_iff,
        List.nodup_nil, and_true, not_or] at hnx'
      obtain ⟨⟨h1, h2⟩, h3⟩ := hnx'
      have hlit := transform_eq vb h1 h2 h3
      have hnotin : ∀ k, k ∈ vbKeys vb →
          ∀ y ∈ rest, k ∉ vbKeys y := by
        intro k hk y hy hky
        exact hdisj hk ((mem_allVbKeys rest k).mpr ⟨y, hy, hky⟩)
      have hnodlit :
          (((transform_varbind_def vb).map Prod.fst)).Nodup := by
        rw [hlit]
        simpa [vbKeys] using hnx
      simp only [List.foldl_cons]
      have hpres : ∀ k, k ∈ vbKeys vb →
          dget (List.foldl
            (fun acc x => dupdate acc (transform_varbind_def x))
            (dupdate d (transform_varbind_def vb)) rest) k =
          dget (dupdate d (transform_varbind_def vb)) k :=
        fun k hk => vb_fold_notmem rest _ k (hnotin k hk)
      refine ⟨?_, ?_, ?_⟩
      · rw [hpres vb.name (by simp [vbKeys])]
        exact dget_dupdate_mem _ _ _ _ hnodlit (by rw [hlit]; simp)
      · rw [hpres vb.oid (by simp [vbKeys])]
        exact dget_dupdate_mem _ _ _ _ hnodlit (by rw [hlit]; simp)
      · rw [hpres (vb.name ++ ":type") (by simp [vbKeys])]
        exact dget_dupdate_mem _ _ _ _ hnodlit (by rw [hlit]; simp)
    · simp only [List.foldl_cons]
      exact ih _ hmem2 hnrest

/-- `dict(); update(base)` is the base dict itself (its five literal
keys are distinct). -/
theorem dupdate_nil_to_dict (t : Trap) :
    dupdate [] t.to_dict = t.to_dict := by
  simp [Trap.to_dict, dupdate, dset]

/-- The document built by `_index_to_elasticsearch`, with the let
bindings spelled out. -/
theorem trapIndex_eq (env : Env) (t : Trap) :
    trapIndex env t =
      ddel
        (dset
          (dset (t.varbinds.foldl
              (fun acc vb => dupdate acc (transform_varbind_def vb))
              (dupdate [] t.to_dict))
            "notification_id"
            ((dget (t.varbinds.foldl
              (fun acc vb => dupdate acc (transform_varbind_def vb))
              (dupdate [] t.to_dict)) "id").getD (.str "")))
          "mib_name" (.str (env.objIdName t.oid)))
        "id" := rfl

/-- C9: for every trap notification reaching the indexing step whose
varbind-derived keys are duplicate-free and avoid the reserved keys, the
dispatched index document maps, for each varbind, its symbolic name to
the pretty value, its raw OID to the raw value, and name:type to the
value-kind tag; the stored identifier is renamed from `id` (absent) to
`notification_id`, and the resolved symbolic name of the trap OID is
added as `mib_name`. -/
theorem claim_C9_flatten (env : Env) (trap : Trap) (vb : Varbind)
    (hmem : vb ∈ trap.varbinds)
    (hnod : (allVbKeys trap.varbinds).Nodup)
    (hres : ∀ k ∈ allVbKeys trap.varbinds,
      k ≠ "id" ∧ k ≠ "notification_id" ∧ k ≠ "mib_name") :
    Event.indexDoc (trapIndex env trap) ∈
      index_to_elasticsearch env trap ∧
    dget (trapIndex env trap) vb.name = some (.str vb.pretty_value) ∧
    dget (trapIndex env trap) vb.oid = some (.str vb.value) ∧
    dget (trapIndex env trap) (vb.name ++ ":type")
      = some (.str vb.value_type) ∧
    dget (trapIndex env trap) "notification_id"
      = some (.nat trap.id) ∧
    dget (trapIndex env trap) "mib_name"
      = some (.str (env.objIdName trap.oid)) ∧
    dget (trapIndex env trap) "id" = none := by
  have hvb := vb_fold_hit trap.varbinds (dupdate [] trap.to_dict) vb
    hmem hnod
  have hidvbs : ∀ x ∈ trap.varbinds, "id" ∉ vbKeys x := by
    intro x hx hk
    exact (hres "id" ((mem_allVbKeys _ _).mpr ⟨x, hx, hk⟩)).1 rfl
  have hid1 : dget (trap.varbinds.foldl
      (fun acc vb => dupdate acc (transform_varbind_def vb))
      (dupdate [] trap.to_dict)) "id" = some (.nat trap.id) := by
    rw [vb_fold_notmem _ _ _ hidvbs, dupdate_nil_to_dict]
    simp [Trap.to_dict, dget]
  have hname : vb.name ∈ allVbKeys trap.varbinds :=
    (mem_allVbKeys _ _).mpr ⟨vb, hmem, by simp [vbKeys]⟩
  have hoid : vb.oid ∈ allVbKeys trap.varbinds :=
    (mem_allVbKeys _ _).mpr ⟨vb, hmem, by simp [vbKeys]⟩
  have htype : vb.name ++ ":type" ∈ allVbKeys trap.varbinds :=
    (mem_allVbKeys _ _).mpr ⟨vb, hmem, by simp [vbKeys]⟩
  obtain ⟨hn1, hn2, hn3⟩ := hres _ hname
  obtain ⟨ho1, ho2, ho3⟩ := hres _ hoid
  obtain ⟨ht1, ht2, ht3⟩ := hres _ htype
  rw [trapIndex_eq]
  refine ⟨by rw [← trapIndex_eq]; simp [index_to_elasticsearch],
    ?_, ?_, ?_, ?_, ?_, ?_⟩
  · rw [dget_ddel_ne _ _ _ hn1, dget_dset_ne _ _ _ _ hn3,
        dget_dset_ne _ _ _ _ hn2]
    exact hvb.1
  · rw [dget_ddel_ne _ _ _ ho1, dget_dset_ne _ _ _ _ ho3,
        dget_dset_ne _ _ _ _ ho2]
    exact hvb.2.1
  · rw [dget_ddel_ne _ _ _ ht1, dget_dset_ne _ _ _ _ ht3,
        dget_dset_ne _ _ _ _ ht2]
    exact hvb.2.2
  · rw [dget_ddel_ne _ _ _ (by decide),
        dget_dset_ne _ _ _ _ (by decide), dget_dset_self, hid1]
    rfl
  · rw [dget_ddel_ne _ _ _ (by decide), dget_dset_self]
  · exact dget_ddel_self _ _

/-- The spec's worked flattening example: one varbind with symbolic
name sysLocation.0, OID 1.3.6.1.2.1.1.6.0, pretty value Lab-1, raw
value Lab-1, kind octet. -/
def exVb : Varbind :=
  ⟨"sysLocation.0", "1.3.6.1.2.1.1.6.0", "Lab-1", "Lab-1", "octet"⟩

/-- A stored notification (id 40) carrying the example varbind. -/
def exTrapVb : Trap :=
  ⟨"10.1.2.3", "2c", "1.3.6.1.2.1.1.6", 1000, [exVb], none, none, none,
   40⟩

/-- Witness for C9 at the spec's worked example. -/
theorem claim_C9_witness :
    dget (trapIndex exEnvC3 exTrapVb) "sysLocation.0"
      = some (.str "Lab-1") ∧
    dget (trapIndex exEnvC3 exTrapVb) "1.3.6.1.2.1.1.6.0"
      = some (.str "Lab-1") ∧
    dget (trapIndex exEnvC3 exTrapVb) "sysLocation.0:type"
      = some (.str "octet") ∧
    dget (trapIndex exEnvC3 exTrapVb) "notification_id"
      = some (.nat 40) ∧
    dget (trapIndex exEnvC3 exTrapVb) "mib_name"
      = some (.str "1.3.6.1.2.1.1.6") ∧
    dget (trapIndex exEnvC3 exTrapVb) "id" = none := by
  obtain ⟨_, e2, e3, e4, e5, e6, e7⟩ :=
    claim_C9_flatten exEnvC3 exTrapVb exVb (by decide) (by decide)
      (by decide)
  exact ⟨e2, e3, e4, e5, e6, e7⟩

end Trapperkeeper
